import Mathlib

/-!
Shallow embedding of the OAuth PKCE authentication and token-lifecycle
subsystem of the microsoft-skill repository
(skills/microsoft-outlook/scripts/lib/types.ts and scripts/microsoft.ts).

Bytes are modelled as Nat (with a < 256 hypothesis where it matters),
strings as Lean String or List Char.  JavaScript union values
`string | null | undefined` are modelled as Option String; JavaScript
truthiness of such a value (used by the source in `if (error)`,
`data.refresh_token || prior`, ...) is `jsTruthy`: a value is truthy
exactly when it is present and non-empty.  `expires_in || 3600` on a
possibly-absent number is `jsOrNat` (0 is falsy in JavaScript).
External effects (the filesystem token files, the provider's HTTP
responses, the credential backends, the wall clock) are passed as
explicit parameters or state.
-/

namespace MSkill

/-- Truthiness of a JavaScript `string | null | undefined` value: present and
non-empty. -/
def jsTruthy : Option String → Bool
  | some s => !s.isEmpty
  | none => false

/-- The string value of a JavaScript string-or-null (null reads as ""). -/
def jsVal : Option String → String
  | some s => s
  | none => ""

/-- JavaScript `o || p` on two possibly-absent strings: the left value when
truthy, otherwise the right value. -/
def jsOr (o p : Option String) : Option String :=
  match o with
  | some s => if s.isEmpty then p else some s
  | none => p

/-- JavaScript `o || d` on a possibly-absent string with a present default. -/
def jsOrDefault (o : Option String) (d : String) : String :=
  match o with
  | some s => if s.isEmpty then d else s
  | none => d

/-- JavaScript `o || d` on a possibly-absent number: 0 is falsy. -/
def jsOrNat (o : Option Nat) (d : Nat) : Nat :=
  match o with
  | some n => if n = 0 then d else n
  | none => d

/-!
PKCE helpers (types.ts lines 380-390).

`generateCodeVerifier` is `crypto.randomBytes(32).toString("base64url")`:
Node's "base64url" encoding is RFC 4648 section 5 (alphabet A-Z a-z 0-9 - _)
WITHOUT padding.  `generateState` is `crypto.randomBytes(16).toString("hex")`
(lowercase hex).  `generateCodeChallenge` is
`crypto.createHash("sha256").update(verifier).digest("base64url")`: the hash
input is the UTF-8 (here: ASCII) bytes of the verifier STRING.  SHA-256
itself is Node library code external to the repository, so it is abstracted
as a function parameter from byte lists to byte lists.
-/

/-- The RFC 4648 URL-safe base64 alphabet, as used by Node's "base64url". -/
def base64urlChar (n : Nat) : Char :=
  if n < 26 then Char.ofNat (65 + n)
  else if n < 52 then Char.ofNat (97 + (n - 26))
  else if n < 62 then Char.ofNat (48 + (n - 52))
  else if n = 62 then '-'
  else '_'

/-- Unpadded URL-safe base64 of a byte list (Node `Buffer.toString "base64url"`):
groups of three bytes become four alphabet characters; a trailing group of one
or two bytes becomes two or three characters and no padding is emitted. -/
def base64urlEncode : List Nat → List Char
  | [] => []
  | [b1] =>
      [base64urlChar (b1 / 4), base64urlChar (b1 % 4 * 16)]
  | [b1, b2] =>
      [base64urlChar (b1 / 4), base64urlChar (b1 % 4 * 16 + b2 / 16),
       base64urlChar (b2 % 16 * 4)]
  | b1 :: b2 :: b3 :: rest =>
      base64urlChar (b1 / 4) :: base64urlChar (b1 % 4 * 16 + b2 / 16) ::
      base64urlChar (b2 % 16 * 4 + b3 / 64) :: base64urlChar (b3 % 64) ::
      base64urlEncode rest

/-- Lowercase hex digit, as used by Node `Buffer.toString "hex"`. -/
def hexChar (n : Nat) : Char :=
  if n < 10 then Char.ofNat (48 + n) else Char.ofNat (97 + (n - 10))

/-- Lowercase hex encoding of a byte list (Node `Buffer.toString "hex"`). -/
def hexEncode : List Nat → List Char
  | [] => []
  | b :: rest => hexChar (b / 16) :: hexChar (b % 16) :: hexEncode rest

/-- The PKCE triple produced for one authorization attempt. -/
structure PkceParameters where
  verifier : List Char
  challenge : List Char
  state : List Char
deriving DecidableEq, Repr

/-- generateCodeVerifier (types.ts line 380): base64url of 32 random bytes;
the byte source is a parameter. -/
def generateCodeVerifier (rand32 : List Nat) : List Char :=
  base64urlEncode rand32

/-- generateCodeChallenge (types.ts line 384): base64url of the SHA-256 digest
of the ASCII bytes of the verifier string; the digest function is a parameter
since SHA-256 lives in Node's crypto library, outside the repository. -/
def generateCodeChallenge (sha256 : List Nat → List Nat) (verifier : List Char) : List Char :=
  base64urlEncode (sha256 (verifier.map Char.toNat))

/-- generateState (types.ts line 388): hex of 16 random bytes. -/
def generateState (rand16 : List Nat) : List Char :=
  hexEncode rand16

/-- The PKCE generator as composed by performAuth (types.ts lines 488-490). -/
def generatePkce (sha256 : List Nat → List Nat) (rand32 rand16 : List Nat) : PkceParameters :=
  { verifier := generateCodeVerifier rand32
    challenge := generateCodeChallenge sha256 (generateCodeVerifier rand32)
    state := generateState rand16 }

/-!
Token store and token lifecycle (types.ts lines 322-452).

The two token files (.claude/microsoft-skill.local.json, relative to the
working directory, and tokens.json under the global config directory) are
modelled as the two Option fields of `Store`: a field is some record exactly
when the file exists and parses.  The project and global paths are distinct
strings for every working directory (distinct final file names), so a path is
the global path exactly when its scope is `Scope.global`.
-/

/-- The two token storage locations. -/
inductive Scope where
  | project
  | global
deriving DecidableEq, Repr

/-- The persisted token record (TokenData, types.ts lines 186-192).  The
fields the source can leave absent at runtime (the code-exchange path copies
provider fields verbatim) are Option. -/
structure TokenData where
  access_token : String
  refresh_token : Option String
  expires_at : Nat
  scope : Option String
  token_type : Option String
deriving DecidableEq, Repr

/-- The state of the two token files. -/
structure Store where
  project : Option TokenData
  globalTok : Option TokenData
deriving DecidableEq, Repr

/-- OAuth client credentials (types.ts lines 181-184). -/
structure Credentials where
  client_id : String
  client_secret : String
deriving DecidableEq, Repr

/-- A token-endpoint response body, as consumed by the source after
`response.json()`: every field may be absent. -/
structure TokenResponse where
  error : Option String
  error_description : Option String
  access_token : String
  refresh_token : Option String
  expires_in : Option Nat
  scope : Option String
  token_type : Option String
deriving DecidableEq, Repr

/-- The scope string sent on every token request (types.ts lines 147-151). -/
def SCOPES : String := "User.Read Mail.Read offline_access"

/-- saveToken (types.ts lines 368-374): writes the whole record to the global
file when `isGlobal`, else to the project file. -/
def saveToken (td : TokenData) (isGlobal : Bool) (s : Store) : Store :=
  if isGlobal then { s with globalTok := some td } else { s with project := some td }

/-- Whether a scope is the global one (the source compares the token path
against getGlobalTokenPath; the two paths never coincide). -/
def Scope.isGlobal : Scope → Bool
  | .global => true
  | .project => false

/-- findTokenPath (types.ts lines 339-353): the project file if it exists,
else the global file if it exists, else none. -/
def findTokenPath (s : Store) : Option Scope :=
  match s.project with
  | some _ => some .project
  | none =>
    match s.globalTok with
    | some _ => some .global
    | none => none

/-- The record stored at a scope. -/
def readAt (s : Store) (sc : Scope) : Option TokenData :=
  match sc with
  | .project => s.project
  | .global => s.globalTok

/-- loadToken (types.ts lines 355-366): resolve the path, then read the file
there; reports not-found when neither file exists. -/
def loadToken (s : Store) : Option (Scope × TokenData) :=
  match findTokenPath s with
  | none => none
  | some sc => (readAt s sc).map (fun t => (sc, t))

/-- The record refreshAccessToken builds from a refresh response
(types.ts lines 417-423). -/
def mkRefreshToken (now : Nat) (prior : Option String) (resp : TokenResponse) : TokenData :=
  { access_token := resp.access_token
    refresh_token := jsOr resp.refresh_token prior
    expires_at := now + jsOrNat resp.expires_in 3600 * 1000
    scope := some (jsOrDefault resp.scope SCOPES)
    token_type := some (jsOrDefault resp.token_type "Bearer") }

/-- refreshAccessToken (types.ts lines 396-428): POSTs the refresh grant (the
response is the parameter `resp`), fails on a provider-reported error field,
otherwise builds the record, saves it to the scope the token path denotes,
and returns it. -/
def refreshAccessToken (now : Nat) (prior : Option String) (resp : TokenResponse)
    (sc : Scope) (s : Store) : Except String (TokenData × Store) :=
  if jsTruthy resp.error then
    .error ("Token refresh failed: " ++ jsOrDefault resp.error_description (jsVal resp.error))
  else
    let tokenData := mkRefreshToken now prior resp
    .ok (tokenData, saveToken tokenData sc.isGlobal s)

/-- The refresh safety buffer, 5 minutes in milliseconds (types.ts line 445). -/
def bufferMs : Nat := 5 * 60 * 1000

/-- getValidAccessToken (types.ts lines 434-452).  Parameters stand for the
environment: `creds` is what loadCredentials resolves (none when no backend
resolves credentials, in which case it throws), `now` is Date.now(), `resp`
is the provider's response should a refresh request be sent.  The second
component counts the refresh requests performed. -/
def getValidAccessToken (now : Nat) (creds : Option Credentials) (resp : TokenResponse)
    (s : Store) : Except String (String × Store) × Nat :=
  match creds with
  | none => (.error "No credentials found. Run: pnpm tsx scripts/microsoft.ts setup", 0)
  | some _ =>
    match findTokenPath s with
    | none => (.error "Token not found. Run: pnpm tsx scripts/microsoft.ts auth", 0)
    | some sc =>
      match readAt s sc with
      | none => (.error "Token not found. Run: pnpm tsx scripts/microsoft.ts auth", 0)
      | some tokenData =>
        if tokenData.expires_at < now + bufferMs then
          match refreshAccessToken now tokenData.refresh_token resp sc s with
          | .error e => (.error e, 1)
          | .ok (td, s2) => (.ok (td.access_token, s2), 1)
        else
          (.ok (tokenData.access_token, s), 0)

/-!
The callback listener inside performAuth (types.ts lines 505-548).

The source installs one HTTP request handler on a server bound to port 3000
and one 5-minute setTimeout, and wraps both in a Promise.  The handler reads
the query parameters `code`, `state` and `error` from the request URL (the
request PATH is never inspected).  We model the handler as a pure function
from a request to an outcome, and the Promise race as a fold of a step
function over a list of events (inbound requests and the timer firing).
-/

/-- An inbound HTTP request to the listener: its path and the three query
parameters the handler reads (absent when not in the query). -/
structure CallbackRequest where
  path : String
  code : Option String
  state : Option String
  error : Option String
deriving DecidableEq, Repr

/-- What the handler does with one request: the HTTP status sent back, and
whether/how the wait terminates. -/
inductive HandlerOutcome where
  | denied (msg : String) (status : Nat)
  | mismatch (status : Nat)
  | success (code : String) (status : Nat)
  | notFound (status : Nat)
deriving DecidableEq, Repr

/-- Whether an outcome terminates the wait (closes the server and settles the
promise). -/
def HandlerOutcome.terminal : HandlerOutcome → Bool
  | .notFound _ => false
  | _ => true

/-- The request handler (types.ts lines 506-537): error first (reject with
the provider's message, 400), then state comparison (reject on mismatch,
400), then code (resolve, 200), else 404 and keep listening.  `if (error)`
and `if (returnedCode)` are JavaScript truthiness; `returnedState !== state`
compares the possibly-null query value with the expected state string. -/
def handleRequest (expectedState : String) (req : CallbackRequest) : HandlerOutcome :=
  if jsTruthy req.error then
    .denied (jsVal req.error) 400
  else if req.state ≠ some expectedState then
    .mismatch 400
  else if jsTruthy req.code then
    .success (jsVal req.code) 200
  else
    .notFound 404

/-- An event during the callback wait: an inbound request, or the 5-minute
timer firing. -/
inductive AuthEvent where
  | request (req : CallbackRequest)
  | timerFire
deriving DecidableEq, Repr

/-- How the wrapping Promise settled. -/
inductive AuthResult where
  | resolved (code : String)
  | rejected (msg : String)
deriving DecidableEq, Repr

/-- The observable state of the wait: whether the server is still listening,
whether the setTimeout is still armed, and how (if at all) the promise has
settled. -/
structure ListenerState where
  serverOpen : Bool
  timerArmed : Bool
  result : Option AuthResult
deriving DecidableEq, Repr

/-- A promise settles at most once: later resolutions and rejections are
no-ops. -/
def settle (r : Option AuthResult) (v : AuthResult) : Option AuthResult :=
  match r with
  | none => some v
  | some r0 => some r0

/-- One step of the wait (types.ts lines 506-548).  A request is delivered
only while the server listens; the handler then closes the server and
settles the promise on every terminal outcome.  The timer callback
(line 544) closes the server and rejects with "Timeout"; the source
never calls clearTimeout, so nothing ever disarms the timer — it stops
being armed only by firing. -/
def authStep (expectedState : String) (st : ListenerState) : AuthEvent → ListenerState
  | .request req =>
    if st.serverOpen then
      match handleRequest expectedState req with
      | .denied msg _ => { st with serverOpen := false, result := settle st.result (.rejected msg) }
      | .mismatch _ => { st with serverOpen := false, result := settle st.result (.rejected "State mismatch") }
      | .success c _ => { st with serverOpen := false, result := settle st.result (.resolved c) }
      | .notFound _ => st
    else
      st
  | .timerFire =>
    if st.timerArmed then
      { st with serverOpen := false, timerArmed := false,
                result := settle st.result (.rejected "Timeout") }
    else
      st

/-- The initial wait state: server listening, timer armed, promise pending. -/
def initListener : ListenerState :=
  { serverOpen := true, timerArmed := true, result := none }

/-- The whole callback wait: fold the step function over the event history. -/
def runAuthWait (expectedState : String) (events : List AuthEvent) : ListenerState :=
  events.foldl (authStep expectedState) initListener

/-!
Token exchange and process termination (types.ts lines 550-580,
microsoft.ts lines 148-156).
-/

/-- The record performAuth builds from a code-exchange response
(types.ts lines 569-575): refresh_token, scope and token_type are copied
verbatim, with no defaults. -/
def mkExchangeToken (now : Nat) (resp : TokenResponse) : TokenData :=
  { access_token := resp.access_token
    refresh_token := resp.refresh_token
    expires_at := now + jsOrNat resp.expires_in 3600 * 1000
    scope := resp.scope
    token_type := resp.token_type }

/-- How a call ends: process exit, a thrown error, or a normal return. -/
inductive ControlFlow where
  | exited (code : Nat)
  | threw (msg : String)
  | returned
deriving DecidableEq, Repr

/-- The tail of performAuth once the authorization code is in hand
(types.ts lines 550-580): exchange the code (the provider's response is the
parameter), fail on an in-band error field, otherwise persist the record at
the requested scope and terminate the process with exit code 0. -/
def performAuthFinish (isGlobal : Bool) (now : Nat) (resp : TokenResponse)
    (s : Store) : Store × ControlFlow :=
  if jsTruthy resp.error then
    (s, .threw ("Token exchange failed: " ++ jsOrDefault resp.error_description (jsVal resp.error)))
  else
    let tokenData := mkExchangeToken now resp
    (saveToken tokenData isGlobal s, .exited 0)

/-- The auth branch of the CLI main (microsoft.ts lines 148-156): awaits
performAuth, then emits the JSON success output — which runs only if
performAuth returns normally.  The Bool records whether the success output
was emitted. -/
def mainAuth (isGlobal : Bool) (now : Nat) (resp : TokenResponse)
    (s : Store) : Store × ControlFlow × Bool :=
  match performAuthFinish isGlobal now resp s with
  | (s2, .returned) => (s2, .returned, true)
  | (s2, cf) => (s2, cf, false)

/-!
Sample values used by witness and counterexample theorems.
-/

/-- A sample credentials value. -/
def sampleCreds : Credentials := { client_id := "id", client_secret := "secret" }

/-- A successful token response carrying every field. -/
def sampleOkResp : TokenResponse :=
  { error := none, error_description := none, access_token := "AT2",
    refresh_token := some "RT2", expires_in := some 3600, scope := some "mail",
    token_type := some "Bearer" }

/-- A successful token response with expires_in, token_type, scope and
refresh_token all absent. -/
def respAbsent : TokenResponse :=
  { error := none, error_description := none, access_token := "AT",
    refresh_token := none, expires_in := none, scope := none, token_type := none }

/-- A stored token record expiring at the given time. -/
def sampleTok (e : Nat) : TokenData :=
  { access_token := "AT1", refresh_token := some "RT1", expires_at := e,
    scope := some "mail", token_type := some "Bearer" }

/-- A successful redirect callback request. -/
def okReq : CallbackRequest :=
  { path := "/callback", code := some "CODE", state := some "STATE1", error := none }

/-- A provider-denial callback request that also carries a code. -/
def deniedReq : CallbackRequest :=
  { path := "/callback", code := some "CODE", state := some "STATE1",
    error := some "access_denied" }

/-- A stray browser request to a non-redirect path, carrying no query
parameters at all. -/
def faviconReq : CallbackRequest :=
  { path := "/favicon.ico", code := none, state := none, error := none }

/-!
Theorems.
-/

/-- Every character of the URL-safe base64 alphabet differs from the padding
character. -/
theorem base64urlChar_ne_pad (n : Nat) : base64urlChar n ≠ '=' := by
  by_cases h : n < 64
  · interval_cases n <;> decide
  · have h26 : ¬ n < 26 := by omega
    have h52 : ¬ n < 52 := by omega
    have h62 : ¬ n < 62 := by omega
    have hne : ¬ n = 62 := by omega
    simp only [base64urlChar, h26, h52, h62, hne, if_false]
    decide

/-- Symmetric form of base64urlChar_ne_pad, for simp. -/
theorem pad_ne_base64urlChar (n : Nat) : ¬ ('=' = base64urlChar n) :=
  fun h => base64urlChar_ne_pad n h.symm

/-- The unpadded base64url encoder never emits a padding character. -/
theorem base64urlEncode_no_pad (bs : List Nat) : '=' ∉ base64urlEncode bs := by
  induction bs using base64urlEncode.induct with
  | case1 => simp [base64urlEncode]
  | case2 b1 => simp [base64urlEncode, pad_ne_base64urlChar]
  | case3 b1 b2 => simp [base64urlEncode, pad_ne_base64urlChar]
  | case4 b1 b2 b3 rest ih => simp [base64urlEncode, pad_ne_base64urlChar, ih]

/-- C1: for every PkceParameters triple produced by the PKCE generator, the
verifier is the unpadded URL-safe base64 encoding of the 32 random bytes, the
state is the hex encoding of the 16 random bytes, and the challenge is the
unpadded URL-safe base64 encoding of the SHA-256 digest of the ASCII bytes of
the encoded verifier string (not of the raw 32 bytes); neither encoded string
contains a padding character. -/
theorem claim_C1 (sha256 : List Nat → List Nat) (rand32 rand16 : List Nat)
    (h32 : rand32.length = 32) (h16 : rand16.length = 16) :
    (generatePkce sha256 rand32 rand16).verifier = base64urlEncode rand32 ∧
    (generatePkce sha256 rand32 rand16).state = hexEncode rand16 ∧
    (generatePkce sha256 rand32 rand16).challenge =
      base64urlEncode (sha256 ((generatePkce sha256 rand32 rand16).verifier.map Char.toNat)) ∧
    '=' ∉ (generatePkce sha256 rand32 rand16).verifier ∧
    '=' ∉ (generatePkce sha256 rand32 rand16).challenge :=
  ⟨rfl, rfl, rfl, base64urlEncode_no_pad rand32, base64urlEncode_no_pad _⟩

/-- Witness for C1 at 32 zero bytes, 16 zero bytes and a constant digest
function. -/
theorem claim_C1_witness :
    (generatePkce (fun _ => List.replicate 32 0) (List.replicate 32 0)
        (List.replicate 16 0)).verifier = base64urlEncode (List.replicate 32 0) ∧
    (generatePkce (fun _ => List.replicate 32 0) (List.replicate 32 0)
        (List.replicate 16 0)).state = hexEncode (List.replicate 16 0) ∧
    (generatePkce (fun _ => List.replicate 32 0) (List.replicate 32 0)
        (List.replicate 16 0)).challenge =
      base64urlEncode ((fun _ => List.replicate 32 0)
        ((generatePkce (fun _ => List.replicate 32 0) (List.replicate 32 0)
          (List.replicate 16 0)).verifier.map Char.toNat)) ∧
    '=' ∉ (generatePkce (fun _ => List.replicate 32 0) (List.replicate 32 0)
        (List.replicate 16 0)).verifier ∧
    '=' ∉ (generatePkce (fun _ => List.replicate 32 0) (List.replicate 32 0)
        (List.replicate 16 0)).challenge :=
  claim_C1 (fun _ => List.replicate 32 0) (List.replicate 32 0) (List.replicate 16 0)
    (by decide) (by decide)

/-- C2: getValidAccessToken refreshes exactly when expires_at is below now
plus the 5-minute buffer: expires_at = now + 4 minutes triggers exactly one
refresh whose result is persisted to the same scope the record was read from,
expires_at = now + 10 minutes triggers zero refreshes and returns the stored
access token unchanged. -/
theorem claim_C2 (now : Nat) (c : Credentials) (resp : TokenResponse) (s : Store)
    (sc : Scope) (td : TokenData)
    (hfind : findTokenPath s = some sc) (hread : readAt s sc = some td)
    (herr : jsTruthy resp.error = false) :
    (td.expires_at = now + 4 * 60 * 1000 →
      getValidAccessToken now (some c) resp s =
        (.ok ((mkRefreshToken now td.refresh_token resp).access_token,
              saveToken (mkRefreshToken now td.refresh_token resp) sc.isGlobal s), 1)) ∧
    (td.expires_at = now + 10 * 60 * 1000 →
      getValidAccessToken now (some c) resp s = (.ok (td.access_token, s), 0)) ∧
    ((getValidAccessToken now (some c) resp s).2 = 1 ↔ td.expires_at < now + bufferMs) := by
  refine ⟨?_, ?_, ?_⟩
  · intro h4
    have hlt : td.expires_at < now + bufferMs := by
      rw [h4]; simp [bufferMs]
    simp [getValidAccessToken, hfind, hread, hlt, refreshAccessToken, herr]
  · intro h10
    have hge : ¬ td.expires_at < now + bufferMs := by
      rw [h10]; simp [bufferMs]
    simp [getValidAccessToken, hfind, hread, hge]
  · by_cases hlt : td.expires_at < now + bufferMs
    · simp [getValidAccessToken, hfind, hread, hlt, refreshAccessToken, herr]
    · simp [getValidAccessToken, hfind, hread, hlt]

/-- Witness for C2: a project-scoped record expiring 4 minutes after now is
refreshed once and the refreshed record is written back to the project
scope. -/
theorem claim_C2_witness :
    (sampleTok (0 + 4 * 60 * 1000)).expires_at = 0 + 4 * 60 * 1000 ∧
    getValidAccessToken 0 (some sampleCreds) sampleOkResp
        { project := some (sampleTok (0 + 4 * 60 * 1000)), globalTok := none } =
      (.ok ((mkRefreshToken 0 (sampleTok (0 + 4 * 60 * 1000)).refresh_token sampleOkResp).access_token,
            saveToken (mkRefreshToken 0 (sampleTok (0 + 4 * 60 * 1000)).refresh_token sampleOkResp)
              Scope.project.isGlobal
              { project := some (sampleTok (0 + 4 * 60 * 1000)), globalTok := none }), 1) :=
  ⟨rfl,
   (claim_C2 0 sampleCreds sampleOkResp
      { project := some (sampleTok (0 + 4 * 60 * 1000)), globalTok := none }
      Scope.project (sampleTok (0 + 4 * 60 * 1000)) rfl rfl rfl).1 rfl⟩

/-- C3: the callback handler decides its terminal outcome by checking error,
then state, then code: a (truthy) error parameter yields the provider-denied
rejection with the provider message and status 400 regardless of any code; a
state differing from the expected state yields the state-mismatch rejection
with status 400 and never a code; otherwise a (truthy) code parameter yields
status 200 and the code.  Presence of a parameter is JavaScript truthiness of
its query value, as in the source. -/
theorem claim_C3 (expectedState : String) (req : CallbackRequest) :
    (jsTruthy req.error = true →
      handleRequest expectedState req = .denied (jsVal req.error) 400) ∧
    (jsTruthy req.error = false → req.state ≠ some expectedState →
      handleRequest expectedState req = .mismatch 400) ∧
    (jsTruthy req.error = false → req.state = some expectedState →
      jsTruthy req.code = true →
      handleRequest expectedState req = .success (jsVal req.code) 200) := by
  refine ⟨?_, ?_, ?_⟩
  · intro herr
    simp [handleRequest, herr]
  · intro herr hstate
    simp [handleRequest, herr, hstate]
  · intro herr hstate hcode
    simp [handleRequest, herr, hstate, hcode]

/-- Witness for C3: a callback carrying both an error and a code, with a
matching state, is rejected as provider-denied with the provider message. -/
theorem claim_C3_witness :
    handleRequest "STATE1" deniedReq = .denied "access_denied" 400 :=
  (claim_C3 "STATE1" deniedReq).1 (by decide)

/-- Counterexample to C4 as stated: with a fresh stored token (expires_at far
beyond the buffer) but no resolvable credentials, getValidAccessToken fails
with the credentials error instead of returning the stored access token —
credentials are resolved unconditionally, not only when a refresh is
needed. -/
theorem claim_C4_cex :
    getValidAccessToken 0 none sampleOkResp
        { project := some (sampleTok 1000000000), globalTok := none } =
      (.error "No credentials found. Run: pnpm tsx scripts/microsoft.ts setup", 0) := rfl

/-- C4 amended: getValidAccessToken resolves credentials unconditionally
first; when credentials resolve and the stored token is outside the refresh
buffer, the stored access token is returned unchanged with zero refreshes;
when no credentials resolve, the call fails with the credentials error (and
performs zero refreshes) even if a fresh token is stored. -/
theorem claim_C4_amended (now : Nat) (c : Credentials) (resp : TokenResponse)
    (s : Store) (sc : Scope) (td : TokenData)
    (hfind : findTokenPath s = some sc) (hread : readAt s sc = some td)
    (hfresh : ¬ td.expires_at < now + bufferMs) :
    getValidAccessToken now (some c) resp s = (.ok (td.access_token, s), 0) ∧
    getValidAccessToken now none resp s =
      (.error "No credentials found. Run: pnpm tsx scripts/microsoft.ts setup", 0) := by
  constructor
  · simp [getValidAccessToken, hfind, hread, hfresh]
  · rfl

/-- Witness for C4 amended: a fresh project-scoped token is returned
unchanged with zero refreshes when credentials resolve. -/
theorem claim_C4_witness :
    getValidAccessToken 0 (some sampleCreds) sampleOkResp
        { project := some (sampleTok 1000000000), globalTok := none } =
      (.ok ((sampleTok 1000000000).access_token,
            { project := some (sampleTok 1000000000), globalTok := none }), 0) ∧
    getValidAccessToken 0 none sampleOkResp
        { project := some (sampleTok 1000000000), globalTok := none } =
      (.error "No credentials found. Run: pnpm tsx scripts/microsoft.ts setup", 0) :=
  claim_C4_amended 0 sampleCreds sampleOkResp
    { project := some (sampleTok 1000000000), globalTok := none }
    Scope.project (sampleTok 1000000000) rfl rfl (by decide)

/-- A run consisting only of requests the handler answers with 404 leaves the
wait in its initial state: still listening, timer armed, promise pending. -/
theorem runAuthWait_nonterminal (expectedState : String) (evs : List AuthEvent)
    (hnt : ∀ e ∈ evs, ∃ req, e = AuthEvent.request req ∧
             handleRequest expectedState req = .notFound 404) :
    runAuthWait expectedState evs = initListener := by
  induction evs with
  | nil => rfl
  | cons e rest ih =>
    obtain ⟨req, he, hout⟩ := hnt e (List.mem_cons_self e rest)
    have h1 : authStep expectedState initListener e = initListener := by
      subst he
      simp [authStep, initListener, hout]
    have h2 : runAuthWait expectedState (e :: rest) = runAuthWait expectedState rest := by
      simp [runAuthWait, List.foldl_cons, h1]
    rw [h2]
    exact ih (fun x hx => hnt x (List.mem_cons_of_mem e hx))

/-- Counterexample to C5 as stated: the source never calls clearTimeout, so
after a successful callback settles the promise and closes the server, the
5-minute timer is still armed — it is not cleared when the callback
succeeds. -/
theorem claim_C5_cex :
    (runAuthWait "STATE1" [AuthEvent.request okReq]).result =
      some (AuthResult.resolved "CODE") ∧
    (runAuthWait "STATE1" [AuthEvent.request okReq]).serverOpen = false ∧
    (runAuthWait "STATE1" [AuthEvent.request okReq]).timerArmed = true := by
  refine ⟨?_, ?_, ?_⟩ <;> decide

/-- C5 amended: the wait has exactly one terminal outcome: after any number
of 404-answered requests, the timer firing closes the listener and rejects
with Timeout; a successful callback closes the listener and resolves with the
code, but the timer stays armed (nothing clears it) and its later firing is a
harmless no-op: the settled result is unchanged and the listener stays
closed, so no listening socket outlives a terminal outcome on either arm. -/
theorem claim_C5_amended (expectedState : String) (evs : List AuthEvent)
    (hnt : ∀ e ∈ evs, ∃ req, e = AuthEvent.request req ∧
             handleRequest expectedState req = .notFound 404)
    (req : CallbackRequest) (c : String)
    (hsucc : handleRequest expectedState req = .success c 200) :
    runAuthWait expectedState (evs ++ [AuthEvent.timerFire]) =
      { serverOpen := false, timerArmed := false,
        result := some (AuthResult.rejected "Timeout") } ∧
    runAuthWait expectedState (evs ++ [AuthEvent.request req]) =
      { serverOpen := false, timerArmed := true,
        result := some (AuthResult.resolved c) } ∧
    runAuthWait expectedState (evs ++ [AuthEvent.request req, AuthEvent.timerFire]) =
      { serverOpen := false, timerArmed := false,
        result := some (AuthResult.resolved c) } := by
  have hinit := runAuthWait_nonterminal expectedState evs hnt
  unfold runAuthWait at hinit ⊢
  refine ⟨?_, ?_, ?_⟩ <;>
    rw [List.foldl_append, hinit] <;>
    simp [authStep, initListener, hsucc, settle]

/-- Witness for C5 amended at an empty prefix and the sample success
request. -/
theorem claim_C5_witness :
    runAuthWait "STATE1" ([] ++ [AuthEvent.timerFire]) =
      { serverOpen := false, timerArmed := false,
        result := some (AuthResult.rejected "Timeout") } ∧
    runAuthWait "STATE1" ([] ++ [AuthEvent.request okReq]) =
      { serverOpen := false, timerArmed := true,
        result := some (AuthResult.resolved "CODE") } ∧
    runAuthWait "STATE1" ([] ++ [AuthEvent.request okReq, AuthEvent.timerFire]) =
      { serverOpen := false, timerArmed := false,
        result := some (AuthResult.resolved "CODE") } :=
  claim_C5_amended "STATE1" [] (by simp) okReq "CODE" (by decide)

/-- Counterexample to C6 as stated: a request to a non-redirect path
(/favicon.ico, no query parameters) is not answered 404 — the handler never
inspects the path, so the absent state parameter falls into the
state-mismatch branch: status 400, the wait terminates, and the flow is
rejected with the state-mismatch error. -/
theorem claim_C6_cex :
    handleRequest "0123456789abcdef0123456789abcdef" faviconReq = .mismatch 400 ∧
    (handleRequest "0123456789abcdef0123456789abcdef" faviconReq).terminal = true ∧
    (runAuthWait "0123456789abcdef0123456789abcdef" [AuthEvent.request faviconReq]).result =
      some (AuthResult.rejected "State mismatch") ∧
    (runAuthWait "0123456789abcdef0123456789abcdef" [AuthEvent.request faviconReq]).serverOpen =
      false := by
  refine ⟨?_, ?_, ?_, ?_⟩ <;> decide

/-- C6 amended: the handler classifies a request by its query parameters
alone and ignores its path entirely; it answers 404 without terminating the
wait exactly when the query has no truthy error, a state equal to the
expected state, and no truthy code — a request on any other path lacking the
expected state terminates the wait through the state-mismatch branch
instead. -/
theorem claim_C6_amended (expectedState : String) (req : CallbackRequest) (p : String) :
    (handleRequest expectedState req = .notFound 404 ↔
      jsTruthy req.error = false ∧ req.state = some expectedState ∧
        jsTruthy req.code = false) ∧
    ((handleRequest expectedState req).terminal = false ↔
      handleRequest expectedState req = .notFound 404) ∧
    handleRequest expectedState { req with path := p } = handleRequest expectedState req := by
  refine ⟨?_, ?_, rfl⟩
  · cases herr : jsTruthy req.error
    · by_cases hstate : req.state = some expectedState
      · cases hcode : jsTruthy req.code
        · simp [handleRequest, herr, hstate, hcode]
        · simp [handleRequest, herr, hstate, hcode]
      · simp [handleRequest, herr, hstate]
    · simp [handleRequest, herr]
  · cases herr : jsTruthy req.error
    · by_cases hstate : req.state = some expectedState
      · cases hcode : jsTruthy req.code
        · simp [handleRequest, HandlerOutcome.terminal, herr, hstate, hcode]
        · simp [handleRequest, HandlerOutcome.terminal, herr, hstate, hcode]
      · simp [handleRequest, HandlerOutcome.terminal, herr, hstate]
    · simp [handleRequest, HandlerOutcome.terminal, herr]

/-- Witness for C6 amended at a request with a matching state and no code,
whose path is irrelevant. -/
theorem claim_C6_witness :
    (handleRequest "STATE1"
        { path := "/callback", code := none, state := some "STATE1", error := none } =
          .notFound 404 ↔
      jsTruthy (none : Option String) = false ∧
        (some "STATE1" : Option String) = some "STATE1" ∧
        jsTruthy (none : Option String) = false) ∧
    ((handleRequest "STATE1"
        { path := "/callback", code := none, state := some "STATE1", error := none }).terminal =
          false ↔
      handleRequest "STATE1"
        { path := "/callback", code := none, state := some "STATE1", error := none } =
          .notFound 404) ∧
    handleRequest "STATE1"
        { ({ path := "/callback", code := none, state := some "STATE1",
             error := none } : CallbackRequest) with path := "/other" } =
      handleRequest "STATE1"
        { path := "/callback", code := none, state := some "STATE1", error := none } :=
  claim_C6_amended "STATE1"
    { path := "/callback", code := none, state := some "STATE1", error := none } "/other"

/-- Counterexample to C7 as stated: the authorization-code exchange builds
its record with no token_type default — a response without token_type yields
a persisted record whose token_type is absent, not the bearer literal (the
default exists only on the refresh path). -/
theorem claim_C7_cex :
    (mkExchangeToken 0 respAbsent).token_type = none ∧
    (mkExchangeToken 0 respAbsent).token_type ≠ some "Bearer" ∧
    (performAuthFinish false 0 respAbsent { project := none, globalTok := none }).1.project =
      some (mkExchangeToken 0 respAbsent) := by
  refine ⟨rfl, ?_, rfl⟩
  decide

/-- C7 amended: both token-endpoint interactions compute expires_at as
capture-time-now plus expires_in seconds in milliseconds, defaulting
expires_in to 3600 when absent; but only the refresh interaction defaults
token_type to the bearer literal when absent — the code-exchange record
copies token_type verbatim from the response, with no default. -/
theorem claim_C7_amended (now : Nat) (prior : Option String) (resp : TokenResponse) :
    (resp.expires_in = none →
      (mkRefreshToken now prior resp).expires_at = now + 3600 * 1000 ∧
      (mkExchangeToken now resp).expires_at = now + 3600 * 1000) ∧
    (∀ n, resp.expires_in = some n → n ≠ 0 →
      (mkRefreshToken now prior resp).expires_at = now + n * 1000 ∧
      (mkExchangeToken now resp).expires_at = now + n * 1000) ∧
    (resp.token_type = none →
      (mkRefreshToken now prior resp).token_type = some "Bearer") ∧
    (mkExchangeToken now resp).token_type = resp.token_type := by
  refine ⟨?_, ?_, ?_, rfl⟩
  · intro h
    constructor <;> simp [mkRefreshToken, mkExchangeToken, jsOrNat, h]
  · intro n h hn
    constructor <;> simp [mkRefreshToken, mkExchangeToken, jsOrNat, h, hn]
  · intro h
    simp [mkRefreshToken, jsOrDefault, h]

/-- Witness for C7 amended at a response with expires_in and token_type both
absent. -/
theorem claim_C7_witness :
    (mkRefreshToken 5 (some "RT1") respAbsent).expires_at = 5 + 3600 * 1000 ∧
    (mkExchangeToken 5 respAbsent).expires_at = 5 + 3600 * 1000 ∧
    (mkRefreshToken 5 (some "RT1") respAbsent).token_type = some "Bearer" ∧
    (mkExchangeToken 5 respAbsent).token_type = respAbsent.token_type :=
  ⟨((claim_C7_amended 5 (some "RT1") respAbsent).1 rfl).1,
   ((claim_C7_amended 5 (some "RT1") respAbsent).1 rfl).2,
   (claim_C7_amended 5 (some "RT1") respAbsent).2.2.1 rfl,
   (claim_C7_amended 5 (some "RT1") respAbsent).2.2.2⟩

/-- C8: on a successful refresh the persisted record keeps the prior
refresh_token when the response omits one, and carries the new value when the
response includes one (a non-empty value, per the JavaScript truthiness the
source uses); in both cases the whole record is written back at the scope
being refreshed. -/
theorem claim_C8 (now : Nat) (prior : Option String) (resp : TokenResponse)
    (sc : Scope) (s : Store) (herr : jsTruthy resp.error = false) :
    (resp.refresh_token = none →
      (mkRefreshToken now prior resp).refresh_token = prior) ∧
    (∀ rt, resp.refresh_token = some rt → rt ≠ "" →
      (mkRefreshToken now prior resp).refresh_token = some rt) ∧
    refreshAccessToken now prior resp sc s =
      .ok (mkRefreshToken now prior resp,
           saveToken (mkRefreshToken now prior resp) sc.isGlobal s) ∧
    readAt (saveToken (mkRefreshToken now prior resp) sc.isGlobal s) sc =
      some (mkRefreshToken now prior resp) := by
  refine ⟨?_, ?_, ?_, ?_⟩
  · intro h
    simp [mkRefreshToken, jsOr, h]
  · intro rt h hrt
    have hie : rt.isEmpty = false := by
      rcases hb : rt.isEmpty with _ | _
      · rfl
      · exact absurd ((String.isEmpty_iff rt).mp hb) hrt
    simp [mkRefreshToken, jsOr, h, hie]
  · simp [refreshAccessToken, herr]
  · cases sc <;> simp [saveToken, readAt, Scope.isGlobal]

/-- Witness for C8: refreshing a global-scoped record with a response that
rotates the refresh token stores the new value at the global scope. -/
theorem claim_C8_witness :
    (mkRefreshToken 0 (some "RT1") sampleOkResp).refresh_token = some "RT2" ∧
    refreshAccessToken 0 (some "RT1") sampleOkResp Scope.global
        { project := none, globalTok := some (sampleTok 0) } =
      .ok (mkRefreshToken 0 (some "RT1") sampleOkResp,
           saveToken (mkRefreshToken 0 (some "RT1") sampleOkResp) Scope.global.isGlobal
             { project := none, globalTok := some (sampleTok 0) }) ∧
    readAt (saveToken (mkRefreshToken 0 (some "RT1") sampleOkResp) Scope.global.isGlobal
        { project := none, globalTok := some (sampleTok 0) }) Scope.global =
      some (mkRefreshToken 0 (some "RT1") sampleOkResp) :=
  ⟨(claim_C8 0 (some "RT1") sampleOkResp Scope.global
      { project := none, globalTok := some (sampleTok 0) } rfl).2.1 "RT2" rfl (by decide),
   (claim_C8 0 (some "RT1") sampleOkResp Scope.global
      { project := none, globalTok := some (sampleTok 0) } rfl).2.2.1,
   (claim_C8 0 (some "RT1") sampleOkResp Scope.global
      { project := none, globalTok := some (sampleTok 0) } rfl).2.2.2⟩

/-- C9: a read with no explicit scope returns the project record whenever one
exists (even when a global record also exists), falls back to the global
record when only that exists, and reports not-found when neither exists; the
returned record is always exactly one stored record, never a merge. -/
theorem claim_C9 (s : Store) :
    (∀ t, s.project = some t → loadToken s = some (Scope.project, t)) ∧
    (∀ t, s.project = none → s.globalTok = some t → loadToken s = some (Scope.global, t)) ∧
    (s.project = none → s.globalTok = none → loadToken s = none) := by
  refine ⟨?_, ?_, ?_⟩
  · intro t h
    simp [loadToken, findTokenPath, readAt, h]
  · intro t hp hg
    simp [loadToken, findTokenPath, readAt, hp, hg]
  · intro hp hg
    simp [loadToken, findTokenPath, hp, hg]

/-- Witness for C9: with distinct records at both scopes the read returns the
project record. -/
theorem claim_C9_witness :
    loadToken { project := some (sampleTok 1), globalTok := some (sampleTok 2) } =
      some (Scope.project, sampleTok 1) :=
  (claim_C9 { project := some (sampleTok 1), globalTok := some (sampleTok 2) }).1
    (sampleTok 1) rfl

/-- C10: on a successful exchange performAuth persists the token record at
the requested scope and terminates the process with exit code 0, never
returning control to its caller — so the CLI auth command code sequenced
after it (the JSON success output) is unreachable on success; performAuth
returns normally on no input at all (on a provider error it throws). -/
theorem claim_C10 (isGlobal : Bool) (now : Nat) (resp : TokenResponse) (s : Store)
    (hok : jsTruthy resp.error = false) :
    performAuthFinish isGlobal now resp s =
      (saveToken (mkExchangeToken now resp) isGlobal s, .exited 0) ∧
    (∀ resp2 : TokenResponse, (performAuthFinish isGlobal now resp2 s).2 ≠ .returned) ∧
    mainAuth isGlobal now resp s =
      (saveToken (mkExchangeToken now resp) isGlobal s, .exited 0, false) := by
  refine ⟨?_, ?_, ?_⟩
  · simp [performAuthFinish, hok]
  · intro resp2
    cases h2 : jsTruthy resp2.error <;> simp [performAuthFinish, h2]
  · simp [mainAuth, performAuthFinish, hok]

/-- Witness for C10: a concrete successful exchange saves the record to the
project scope, exits with code 0, and the CLI success output is never
emitted. -/
theorem claim_C10_witness :
    performAuthFinish false 7 sampleOkResp { project := none, globalTok := none } =
      (saveToken (mkExchangeToken 7 sampleOkResp) false
         { project := none, globalTok := none }, .exited 0) ∧
    (∀ resp2 : TokenResponse,
      (performAuthFinish false 7 resp2 { project := none, globalTok := none }).2 ≠ .returned) ∧
    mainAuth false 7 sampleOkResp { project := none, globalTok := none } =
      (saveToken (mkExchangeToken 7 sampleOkResp) false
         { project := none, globalTok := none }, .exited 0, false) :=
  claim_C10 false 7 sampleOkResp { project := none, globalTok := none } rfl

end MSkill
